import Mathlib

/-!
Shallow embedding of the ffmpeg-video-merger server (src/server.js, the
current enhanced snapshot: request validation, sequential download loop,
ffmpeg concat merge with a transient manifest, smart bitrate compression,
size-tiered Cloudinary upload strategies with a fallback, temp-file
cleanup, and the daily retention sweep over old remote artifacts).
-/

namespace VideoMerger

/-- Model of a JSON/JavaScript value as it can appear in a request body. -/
inductive JsValue where
  | null
  | bool (b : Bool)
  | num (n : Int)
  | str (s : String)
  | arr (elems : List JsValue)
  | obj (fields : List (String × JsValue))

/-- JavaScript truthiness of `req.body.videoUrls` (`!videoUrls` in the
validation at server.js line 718); `none` models an absent field
(`undefined`). -/
def isFalsy : Option JsValue → Bool
  | none => true
  | some JsValue.null => true
  | some (JsValue.bool b) => !b
  | some (JsValue.num n) => n == 0
  | some (JsValue.str s) => s == ""
  | some (JsValue.arr _) => false
  | some (JsValue.obj _) => false

/-- `Array.isArray(videoUrls)`. -/
def isArray : Option JsValue → Bool
  | some (JsValue.arr _) => true
  | _ => false

/-- `videoUrls.length`, defined only on arrays (0 elsewhere; the code only
reads `.length` once array-ness is established by short-circuiting). -/
def jsArrayLength : Option JsValue → Nat
  | some (JsValue.arr elems) => elems.length
  | _ => 0

/-- Validation block of POST /merge-videos (server.js lines 717-730):
`!videoUrls || !Array.isArray(videoUrls) || videoUrls.length === 0` gives
one 400, `videoUrls.length > 10` gives the other; `none` means the request
passes validation. -/
def validationError (videoUrls : Option JsValue) : Option (Nat × String) :=
  if isFalsy videoUrls || !isArray videoUrls || jsArrayLength videoUrls == 0 then
    some (400, "videoUrls array is required and must contain at least one URL")
  else if jsArrayLength videoUrls > 10 then
    some (400, "Maximum 10 videos allowed per merge request")
  else
    none

/-- The temp-directory artifacts one session can create.  `staged i` is
`${sessionId}_video_${i}.mp4` (i counted from 1), `merged` is
`merged_${sessionId}.mp4`, `compressed` is `compressed_${sessionId}.mp4`,
`manifest` is the ffmpeg `input_list_${uuid}.txt` list file. -/
inductive TempFile where
  | staged (i : Nat)
  | merged
  | compressed
  | manifest
deriving Repr, DecidableEq

/-- The on-disk path of a session artifact (names from server.js lines
747, 753, 773, 390). -/
def tempFilePath (sessionId : String) : TempFile → String
  | TempFile.staged i => sessionId ++ "_video_" ++ toString i ++ ".mp4"
  | TempFile.merged => "merged_" ++ sessionId ++ ".mp4"
  | TempFile.compressed => "compressed_" ++ sessionId ++ ".mp4"
  | TempFile.manifest => "input_list.txt"

/-- `fileSizeMB = stats.size / (1024 * 1024)` (server.js lines 446, 760),
modelled exactly over the rationals. -/
def fileSizeMBOfBytes (bytes : Nat) : ℚ := (bytes : ℚ) / (1024 * 1024)

/-- An error thrown by a Cloudinary upload call; the code only ever
inspects whether the message contains the substrings `'too large'` or
`'synchronously'` (server.js line 525), so the message is modelled by
those two flags. -/
structure UploadError where
  tooLarge : Bool
  synchronously : Bool
deriving Repr, DecidableEq

/-- `error.message.includes('too large') || error.message.includes('synchronously')`. -/
def sizeOrSyncRelated (e : UploadError) : Bool := e.tooLarge || e.synchronously

/-- The distinct Cloudinary upload call sites in `uploadToCloudinary` and
`uploadLargeFileWithStreaming` (server.js lines 440-662). -/
inductive AttemptKind where
  | streamingUpload
  | chunkedUpload
  | asyncUpload
  | syncUpload
  | compressedFallback
deriving Repr, DecidableEq

/-- The options object passed to one upload call, reduced to the fields
that distinguish the call sites. -/
structure UploadOptions where
  unsigned : Bool
  eagerAsync : Bool
  eagerTransforms : Bool
  quality : Option String
  format : Option String
  videoCodec : Option String
  bitRate : Option String
  fps : Option Nat
  chunkSize : Option Nat
  publicIdSuffix : String
deriving Repr, DecidableEq

/-- Transcription of the options at each upload call site.  Every call
goes through the authenticated `cloudinary.uploader` API configured with
the api key and secret, so no call is unsigned. -/
def attemptOptions : AttemptKind → UploadOptions
  | AttemptKind.streamingUpload =>
      { unsigned := false, eagerAsync := true, eagerTransforms := true,
        quality := none, format := none, videoCodec := none, bitRate := none,
        fps := none, chunkSize := some 6000000, publicIdSuffix := "" }
  | AttemptKind.chunkedUpload =>
      { unsigned := false, eagerAsync := true, eagerTransforms := true,
        quality := none, format := none, videoCodec := none, bitRate := none,
        fps := none, chunkSize := some 6000000, publicIdSuffix := "" }
  | AttemptKind.asyncUpload =>
      { unsigned := false, eagerAsync := true, eagerTransforms := true,
        quality := none, format := none, videoCodec := none, bitRate := none,
        fps := none, chunkSize := none, publicIdSuffix := "" }
  | AttemptKind.syncUpload =>
      { unsigned := false, eagerAsync := false, eagerTransforms := false,
        quality := some "auto", format := some "mp4", videoCodec := none,
        bitRate := none, fps := none, chunkSize := none, publicIdSuffix := "" }
  | AttemptKind.compressedFallback =>
      { unsigned := false, eagerAsync := true, eagerTransforms := false,
        quality := some "auto:low", format := none, videoCodec := some "h264",
        bitRate := some "500k", fps := some 24, chunkSize := none,
        publicIdSuffix := "_compressed" }

/-- Whether an upload call carries any transform directive (an eager
transformation list, or inline quality / format / codec / bitrate / fps
parameters). -/
def hasTransformDirectives (o : UploadOptions) : Bool :=
  o.eagerTransforms || o.quality.isSome || o.format.isSome ||
    o.videoCodec.isSome || o.bitRate.isSome || o.fps.isSome

/-- The size-tiered primary dispatch of `uploadToCloudinary` (server.js
lines 450-519), including the internal chunked-to-streaming fallback that
fires on any `upload_large` error (lines 479-482).  `up` is the oracle for
the outcome of each Cloudinary call; the result pairs the sequence of
attempted calls with the outcome of the last one. -/
def runPrimary (up : AttemptKind → Except UploadError String) (bytes : Nat) :
    List AttemptKind × Except UploadError String :=
  if fileSizeMBOfBytes bytes > 200 then
    ([AttemptKind.streamingUpload], up AttemptKind.streamingUpload)
  else if fileSizeMBOfBytes bytes > 100 then
    match up AttemptKind.chunkedUpload with
    | Except.ok url => ([AttemptKind.chunkedUpload], Except.ok url)
    | Except.error _ =>
        ([AttemptKind.chunkedUpload, AttemptKind.streamingUpload],
         up AttemptKind.streamingUpload)
  else if fileSizeMBOfBytes bytes > 50 then
    ([AttemptKind.asyncUpload], up AttemptKind.asyncUpload)
  else
    ([AttemptKind.syncUpload], up AttemptKind.syncUpload)

/-- Full `uploadToCloudinary` (server.js lines 440-549): run the tiered
primary dispatch; on an error whose message is size- or synchronicity-
related, make one final fallback attempt with aggressive compression
options under `publicId + '_compressed'`; aggregate both errors if the
fallback also fails; propagate any other error class unchanged. -/
def uploadToCloudinary (up : AttemptKind → Except UploadError String)
    (bytes : Nat) : List AttemptKind × Except (List UploadError) String :=
  let p := runPrimary up bytes
  match p.2 with
  | Except.ok url => (p.1, Except.ok url)
  | Except.error e =>
      if sizeOrSyncRelated e then
        match up AttemptKind.compressedFallback with
        | Except.ok url => (p.1 ++ [AttemptKind.compressedFallback], Except.ok url)
        | Except.error f =>
            (p.1 ++ [AttemptKind.compressedFallback], Except.error [e, f])
      else
        (p.1, Except.error [e])

/-- The response-side strategy labels (server.js lines 808-812 and the
`/health` listing). -/
inductive UploadStrategy where
  | sync
  | async
  | chunked
  | streaming
deriving Repr, DecidableEq

/-- `let uploadStrategy = 'sync'; if (finalFileSizeMB > 200) ... 'streaming';
else if (> 100) 'chunked'; else if (> 50) 'async'` (server.js lines
808-812). -/
def selectUploadStrategy (finalFileSizeMB : ℚ) : UploadStrategy :=
  if finalFileSizeMB > 200 then UploadStrategy.streaming
  else if finalFileSizeMB > 100 then UploadStrategy.chunked
  else if finalFileSizeMB > 50 then UploadStrategy.async
  else UploadStrategy.sync

/-- The primary upload call corresponding to each strategy label. -/
def strategyAttempt : UploadStrategy → AttemptKind
  | UploadStrategy.sync => AttemptKind.syncUpload
  | UploadStrategy.async => AttemptKind.asyncUpload
  | UploadStrategy.chunked => AttemptKind.chunkedUpload
  | UploadStrategy.streaming => AttemptKind.streamingUpload

/-- `cleanupFiles` (server.js lines 553-564) applied to a file-system
state: each listed path is unlinked if it exists (a missing path is a
no-op, and unlink errors are only logged). -/
def cleanupFiles (files : List TempFile) (toRemove : List TempFile) : List TempFile :=
  files.filter (fun f => !(toRemove.contains f))

/-- The body of the download `for` loop (server.js lines 746-750) over the
remaining URL indices: `downloadVideo` either succeeds (HTTP ok, the
staged file `${sessionId}_video_${i + 1}.mp4` is written, the path is
pushed onto `downloadedFiles`, and the loop continues with the next index)
or throws (non-ok HTTP status or network error, before the file is
written), which aborts the loop.  Returns the indices on which a fetch was
attempted, the staged files created, and whether the whole loop
succeeded. -/
def downloadLoopGo (downloadOk : Nat → Bool) :
    List Nat → List Nat × List TempFile × Bool
  | [] => ([], [], true)
  | i :: rest =>
      if downloadOk i then
        let r := downloadLoopGo downloadOk rest
        (i :: r.1, TempFile.staged (i + 1) :: r.2.1, r.2.2)
      else
        ([i], [], false)

/-- The download loop `for (let i = 0; i < videoUrls.length; i++)`
(server.js lines 746-750). -/
def downloadLoop (downloadOk : Nat → Bool) (n : Nat) :
    List Nat × List TempFile × Bool :=
  downloadLoopGo downloadOk (List.range n)

/-- The manifest content built by `mergeVideos` (server.js line 391):
one line `file '<path>'` per input file, in input order. -/
def mergeVideosManifestLines (inputFiles : List String) : List String :=
  inputFiles.map (fun f => "file \x27" ++ f ++ "\x27")

/-- `mergeVideos` (server.js lines 385-436) acting on the session's
file-system state: the manifest list file is written, ffmpeg runs, and in
the `close` handler the manifest is unconditionally unlinked before the
exit code is inspected; exit code 0 resolves with the merged output
written, any other exit code rejects with
`FFmpeg failed with exit code ${code}` (and no usable output is assumed,
per the encoder contract). -/
def mergeVideosRun (files : List TempFile) (exitCode : Nat) :
    Except String Unit × List TempFile :=
  let filesWithManifest := files ++ [TempFile.manifest]
  let filesAfterClose := filesWithManifest.filter (fun f => f ≠ TempFile.manifest)
  if exitCode == 0 then
    (Except.ok (), filesAfterClose ++ [TempFile.merged])
  else
    (Except.error ("FFmpeg failed with exit code " ++ toString exitCode),
     filesAfterClose)

/-- The shape of the one transform the code owns, `compressVideoSmart`
(server.js lines 567-618): fluent-ffmpeg re-encode with libx264/aac, a
video bitrate computed from the 90 MB target size and the probed duration,
128k audio, and a fixed option list (`-preset fast -crf 23
-profile:v baseline -level 3.0 -pix_fmt yuv420p -movflags +faststart`)
that contains no scaling/resolution directive. -/
structure CompressParams where
  videoCodec : String
  audioCodec : String
  videoBitrateFromTargetSize : Bool
  audioBitrate : String
  setsResolution : Bool
deriving Repr, DecidableEq

/-- The parameters of the single `compressVideoSmart` call site. -/
def compressVideoSmartParams : CompressParams :=
  { videoCodec := "libx264", audioCodec := "aac",
    videoBitrateFromTargetSize := true, audioBitrate := "128k",
    setsResolution := false }

/-- Result of the compression block (server.js lines 768-797). -/
structure CompressionOutcome where
  attempts : List CompressParams
  applied : Bool
  finalBytes : Nat
  files : List TempFile
  cleanupList : List TempFile
  finalOutput : TempFile

/-- The compression block of POST /merge-videos (server.js lines 768-797):
if the merged size exceeds 95 MB, try `compressVideoSmart` toward 90 MB
(`compressResult` is the subprocess oracle: an error, or the compressed
output's byte size); on success keep the compressed file only if it is
smaller than 80% of the original (pushing it onto the cleanup list),
otherwise unlink it; on error fall back to the original file.  Below the
95 MB mark nothing is attempted. -/
def compressionBlock (compressResult : Except Unit Nat) (mergedBytes : Nat)
    (filesMerged downloadedFiles : List TempFile) : CompressionOutcome :=
  let initialFileSizeMB := fileSizeMBOfBytes mergedBytes
  if initialFileSizeMB > 95 then
    match compressResult with
    | Except.error _ =>
        { attempts := [compressVideoSmartParams], applied := false,
          finalBytes := mergedBytes, files := filesMerged,
          cleanupList := downloadedFiles, finalOutput := TempFile.merged }
    | Except.ok compressedBytes =>
        let filesC := filesMerged ++ [TempFile.compressed]
        if fileSizeMBOfBytes compressedBytes < initialFileSizeMB * (8 / 10) then
          { attempts := [compressVideoSmartParams], applied := true,
            finalBytes := compressedBytes, files := filesC,
            cleanupList := downloadedFiles ++ [TempFile.compressed],
            finalOutput := TempFile.compressed }
        else
          { attempts := [compressVideoSmartParams], applied := false,
            finalBytes := mergedBytes,
            files := filesC.filter (fun f => f ≠ TempFile.compressed),
            cleanupList := downloadedFiles, finalOutput := TempFile.merged }
  else
    { attempts := [], applied := false, finalBytes := mergedBytes,
      files := filesMerged, cleanupList := downloadedFiles,
      finalOutput := TempFile.merged }

/-- The oracle for everything external to one request: whether Cloudinary
credentials are set, the per-index download outcome, the ffmpeg concat
exit code, the merged artifact's byte size, the compression subprocess
outcome, and the outcome of each Cloudinary upload call. -/
structure PipelineEnv where
  cloudinaryConfigured : Bool
  downloadOk : Nat → Bool
  ffmpegExitCode : Nat
  mergedSizeBytes : Nat
  compressResult : Except Unit Nat
  upload : AttemptKind → Except UploadError String

/-- Everything observable about one handled request: the HTTP response
(status, success flag, error message, and the success body's
`compressed`/`uploadType`/`videosProcessed`/`fileSize` fields), plus the
model's trace of what happened (session creation, fetch attempts,
transform attempts, the file handed to the uploader, the upload attempts,
and the temp files still on disk when the response is sent). -/
structure PipelineOutcome where
  status : Nat
  success : Bool
  errorMsg : Option String
  compressed : Option Bool
  uploadType : Option UploadStrategy
  videosProcessed : Option Nat
  fileSizeMB : Option ℚ
  sessionCreated : Bool
  downloadAttempts : List Nat
  transformAttempts : List CompressParams
  uploadedFile : Option TempFile
  uploadAttempts : List AttemptKind
  finalFiles : List TempFile
deriving Repr

/-- The POST /merge-videos handler (server.js lines 711-845): validation,
Cloudinary-config check, session creation, sequential downloads, ffmpeg
merge, the 95 MB compression block, the tiered upload, and the success /
catch cleanup paths (`cleanupFiles([...downloadedFiles, outputPath])` on
success, `cleanupFiles([...downloadedFiles])` in the catch block). -/
def mergeVideosHandler (env : PipelineEnv) (videoUrls : Option JsValue) :
    PipelineOutcome :=
  match validationError videoUrls with
  | some (st, msg) =>
      { status := st, success := false, errorMsg := some msg,
        compressed := none, uploadType := none, videosProcessed := none,
        fileSizeMB := none, sessionCreated := false, downloadAttempts := [],
        transformAttempts := [], uploadedFile := none, uploadAttempts := [],
        finalFiles := [] }
  | none =>
    if !env.cloudinaryConfigured then
      { status := 500, success := false,
        errorMsg := some "Cloudinary configuration missing",
        compressed := none, uploadType := none, videosProcessed := none,
        fileSizeMB := none, sessionCreated := false, downloadAttempts := [],
        transformAttempts := [], uploadedFile := none, uploadAttempts := [],
        finalFiles := [] }
    else
      let n := jsArrayLength videoUrls
      let dl := downloadLoop env.downloadOk n
      let downloadedFiles := dl.2.1
      if !dl.2.2 then
        { status := 500, success := false,
          errorMsg := some "download failed", compressed := none,
          uploadType := none, videosProcessed := none, fileSizeMB := none,
          sessionCreated := true, downloadAttempts := dl.1,
          transformAttempts := [], uploadedFile := none, uploadAttempts := [],
          finalFiles := cleanupFiles downloadedFiles downloadedFiles }
      else
        let m := mergeVideosRun downloadedFiles env.ffmpegExitCode
        match m.1 with
        | Except.error msg =>
            { status := 500, success := false, errorMsg := some msg,
              compressed := none, uploadType := none, videosProcessed := none,
              fileSizeMB := none, sessionCreated := true,
              downloadAttempts := dl.1, transformAttempts := [],
              uploadedFile := none, uploadAttempts := [],
              finalFiles := cleanupFiles m.2 downloadedFiles }
        | Except.ok _ =>
            let c := compressionBlock env.compressResult env.mergedSizeBytes
              m.2 downloadedFiles
            let up := uploadToCloudinary env.upload c.finalBytes
            match up.2 with
            | Except.error _ =>
                { status := 500, success := false,
                  errorMsg := some "Failed to merge videos",
                  compressed := none, uploadType := none,
                  videosProcessed := none, fileSizeMB := none,
                  sessionCreated := true, downloadAttempts := dl.1,
                  transformAttempts := c.attempts,
                  uploadedFile := some c.finalOutput, uploadAttempts := up.1,
                  finalFiles := cleanupFiles c.files c.cleanupList }
            | Except.ok _url =>
                { status := 200, success := true, errorMsg := none,
                  compressed := some c.applied,
                  uploadType :=
                    some (selectUploadStrategy (fileSizeMBOfBytes c.finalBytes)),
                  videosProcessed := some n,
                  fileSizeMB := some (fileSizeMBOfBytes c.finalBytes),
                  sessionCreated := true, downloadAttempts := dl.1,
                  transformAttempts := c.attempts,
                  uploadedFile := some c.finalOutput, uploadAttempts := up.1,
                  finalFiles :=
                    cleanupFiles c.files (c.cleanupList ++ [TempFile.merged]) }

/-- A delivered remote artifact as seen by the retention sweep:
public identifier and creation timestamp in milliseconds. -/
structure RemoteArtifact where
  publicId : String
  createdAt : Int
deriving Repr, DecidableEq

/-- Thirty days in milliseconds (`thirtyDaysAgo.setDate(getDate() - 30)`,
server.js lines 337-338). -/
def thirtyDaysMs : Int := 30 * 24 * 60 * 60 * 1000

/-- Descending insertion by `createdAt` (the sweep's
`sort_by created_at desc`). -/
def insertDesc (a : RemoteArtifact) : List RemoteArtifact → List RemoteArtifact
  | [] => [a]
  | b :: rest =>
      if a.createdAt ≤ b.createdAt then b :: insertDesc a rest
      else a :: b :: rest

/-- Sort by `createdAt` descending. -/
def sortByCreatedDesc : List RemoteArtifact → List RemoteArtifact
  | [] => []
  | a :: rest => insertDesc a (sortByCreatedDesc rest)

/-- The Cloudinary search of the auto-cleanup cron job (server.js lines
341-345): artifacts in the `merged-videos` folder with
`created_at < thirtyDaysAgo`, sorted by creation time descending, at most
100 results. -/
def autoCleanupSearch (artifacts : List RemoteArtifact) (now : Int) :
    List RemoteArtifact :=
  (sortByCreatedDesc
    (artifacts.filter (fun a => a.createdAt < now - thirtyDaysMs))).take 100

/-- The deletion loop of the auto-cleanup cron job (server.js lines
347-354): one `destroy` attempt per matched artifact, each wrapped in its
own try/catch so an individual failure is logged and the loop continues.
`destroyOk` is the oracle for whether a given deletion succeeds; the
result records, in order, each attempted public id with its outcome. -/
def autoCleanupSweep (artifacts : List RemoteArtifact) (now : Int)
    (destroyOk : String → Bool) : List (String × Bool) :=
  (autoCleanupSearch artifacts now).map
    (fun r => (r.publicId, destroyOk r.publicId))

/-! ### Helper lemmas -/

lemma mem_cleanupFiles {f : TempFile} {files toRemove : List TempFile} :
    f ∈ cleanupFiles files toRemove ↔ f ∈ files ∧ f ∉ toRemove := by
  simp [cleanupFiles, List.mem_filter]

lemma cleanupFiles_eq_nil {files toRemove : List TempFile}
    (h : ∀ x ∈ files, x ∈ toRemove) : cleanupFiles files toRemove = [] := by
  rw [cleanupFiles, List.filter_eq_nil_iff]
  intro a ha
  simp [h a ha]

lemma downloadLoopGo_all_ok {ok : Nat → Bool} {l : List Nat}
    (h : ∀ j ∈ l, ok j = true) :
    downloadLoopGo ok l = (l, l.map (fun i => TempFile.staged (i + 1)), true) := by
  induction l with
  | nil => rfl
  | cons i rest ih =>
      have hi : ok i = true := h i (by simp)
      have ih' := ih (fun j hj => h j (by simp [hj]))
      simp [downloadLoopGo, hi, ih']

lemma downloadLoopGo_append_fail {ok : Nat → Bool} {l₁ l₂ : List Nat} {k : Nat}
    (h : ∀ j ∈ l₁, ok j = true) (hk : ok k = false) :
    downloadLoopGo ok (l₁ ++ k :: l₂) =
      (l₁ ++ [k], l₁.map (fun i => TempFile.staged (i + 1)), false) := by
  induction l₁ with
  | nil => simp [downloadLoopGo, hk]
  | cons i rest ih =>
      have hi : ok i = true := h i (by simp)
      have ih' := ih (fun j hj => h j (by simp [hj]))
      simp [downloadLoopGo, hi, ih']

lemma range_split {k n : Nat} (h : k < n) :
    List.range n = List.range k ++ k :: List.range' (k + 1) (n - (k + 1)) := by
  have h1 : List.range' k (n - k) = k :: List.range' (k + 1) (n - (k + 1)) := by
    have e : n - k = (n - (k + 1)) + 1 := by omega
    rw [e, List.range'_succ]
  have h2 := List.range'_append 0 k (n - k) 1
  have e1 : 0 + 1 * k = k := by ring
  have e2 : n - k + k = n := by omega
  rw [e1, e2] at h2
  rw [List.range_eq_range' n, ← h2, h1, ← List.range_eq_range' k]

lemma downloadLoop_cases (ok : Nat → Bool) (n : Nat) :
    ((∀ j, j < n → ok j = true) ∧
      downloadLoop ok n =
        (List.range n, (List.range n).map (fun i => TempFile.staged (i + 1)), true)) ∨
    (∃ k, k < n ∧ ok k = false ∧ (∀ j, j < k → ok j = true) ∧
      downloadLoop ok n =
        (List.range (k + 1), (List.range k).map (fun i => TempFile.staged (i + 1)), false)) := by
  by_cases h : ∀ j, j < n → ok j = true
  · exact Or.inl ⟨h, downloadLoopGo_all_ok (fun j hj => h j (List.mem_range.mp hj))⟩
  · right
    push_neg at h
    obtain ⟨j0, hj0n, hj0⟩ := h
    have hj0' : ok j0 = false := by simpa using hj0
    have hex : ∃ j, ok j = false := ⟨j0, hj0'⟩
    refine ⟨Nat.find hex, ?_, Nat.find_spec hex, ?_, ?_⟩
    · exact lt_of_le_of_lt (Nat.find_min' hex hj0') hj0n
    · intro j hj
      have := Nat.find_min hex hj
      simpa using this
    · have hkn : Nat.find hex < n := lt_of_le_of_lt (Nat.find_min' hex hj0') hj0n
      have hmin : ∀ j ∈ List.range (Nat.find hex), ok j = true := by
        intro j hj
        have := Nat.find_min hex (List.mem_range.mp hj)
        simpa using this
      unfold downloadLoop
      rw [range_split hkn, downloadLoopGo_append_fail hmin (Nat.find_spec hex),
        ← List.range_succ]

lemma manifest_not_mem_mergeVideosRun (files : List TempFile) (c : Nat) :
    TempFile.manifest ∉ (mergeVideosRun files c).2 := by
  unfold mergeVideosRun
  cases hc : c == 0 <;> simp [List.mem_filter]

lemma mergeVideosRun_snd_subset (files : List TempFile) (c : Nat) :
    ∀ f ∈ (mergeVideosRun files c).2, f ∈ files ∨ f = TempFile.merged := by
  intro f hf
  unfold mergeVideosRun at hf
  split_ifs at hf <;>
    simp only [List.mem_append, List.mem_filter, List.mem_singleton,
      decide_eq_true_eq] at hf <;> tauto

lemma compressionBlock_dl_subset (cr : Except Unit Nat) (mb : Nat)
    (filesMerged dl : List TempFile) :
    ∀ f ∈ dl, f ∈ (compressionBlock cr mb filesMerged dl).cleanupList := by
  intro f hf
  by_cases h95 : fileSizeMBOfBytes mb > 95
  · cases cr with
    | error e => simp [compressionBlock, h95, hf]
    | ok cb =>
        by_cases hsm : fileSizeMBOfBytes cb < fileSizeMBOfBytes mb * (8 / 10)
        · simp [compressionBlock, h95, hsm, hf]
        · simp [compressionBlock, h95, hsm, hf]
  · simp [compressionBlock, h95, hf]

lemma compressionBlock_files_spec (cr : Except Unit Nat) (mb : Nat)
    (filesMerged dl : List TempFile) :
    ∀ f ∈ (compressionBlock cr mb filesMerged dl).files,
      (f ∈ (compressionBlock cr mb filesMerged dl).cleanupList ∨ f ∈ filesMerged) ∧
      (f ∉ (compressionBlock cr mb filesMerged dl).cleanupList →
        f ∈ filesMerged ∧ f ∉ dl) := by
  intro f hf
  by_cases h95 : fileSizeMBOfBytes mb > 95
  · cases cr with
    | error e =>
        simp only [compressionBlock, h95, if_true] at hf ⊢
        exact ⟨Or.inr hf, fun hn => ⟨hf, fun hd => hn hd⟩⟩
    | ok cb =>
        by_cases hsm : fileSizeMBOfBytes cb < fileSizeMBOfBytes mb * (8 / 10)
        · simp only [compressionBlock, h95, hsm, if_true, List.mem_append,
            List.mem_singleton] at hf ⊢
          constructor
          · tauto
          · intro hn
            push_neg at hn
            rcases hf with h | h
            · exact ⟨h, hn.1⟩
            · exact absurd h hn.2
        · simp only [compressionBlock, h95, hsm, if_true, if_false,
            List.mem_filter, List.mem_append, List.mem_singleton,
            decide_eq_true_eq] at hf ⊢
          rcases hf with ⟨h | h, hne⟩
          · exact ⟨Or.inr h, fun hn => ⟨h, hn⟩⟩
          · exact absurd h hne
  · simp only [compressionBlock, h95, if_false] at hf ⊢
    exact ⟨Or.inr hf, fun hn => ⟨hf, hn⟩⟩

lemma mergeVideosRun_snd_of_ne (files : List TempFile) (c : Nat)
    (h : (c == 0) = false) : ∀ f ∈ (mergeVideosRun files c).2, f ∈ files := by
  intro f hf
  unfold mergeVideosRun at hf
  rw [h] at hf
  simp only [Bool.false_eq_true, if_false, List.mem_filter, List.mem_append,
    List.mem_singleton, decide_eq_true_eq] at hf
  tauto

lemma mergeVideosRun_fst (files : List TempFile) (c : Nat) :
    (mergeVideosRun files c).1 =
      if c == 0 then Except.ok ()
      else Except.error ("FFmpeg failed with exit code " ++ toString c) := by
  unfold mergeVideosRun
  split_ifs <;> rfl

/-- Claim C2 (amended): on every exit path, every staged file, the
manifest, and any transformed artifact are deleted before the response is
sent, and on success the concatenated artifact is deleted as well (so at
most the concatenated artifact can remain, and only on a delivery
failure); on any exit before the delivery stage nothing remains. -/
theorem claim_C2_amended (env : PipelineEnv) (videoUrls : Option JsValue) :
    ((mergeVideosHandler env videoUrls).finalFiles.all
        (fun f => f = TempFile.merged) = true) ∧
    ((mergeVideosHandler env videoUrls).success = true →
        (mergeVideosHandler env videoUrls).finalFiles = []) ∧
    ((mergeVideosHandler env videoUrls).uploadedFile = none →
        (mergeVideosHandler env videoUrls).finalFiles = []) := by
  unfold mergeVideosHandler
  cases hv : validationError videoUrls with
  | some p => obtain ⟨st, msg⟩ := p; simp
  | none =>
    cases hcfg : env.cloudinaryConfigured with
    | false => simp
    | true =>
      simp only [Bool.not_true, Bool.false_eq_true, if_false]
      rcases downloadLoop_cases env.downloadOk (jsArrayLength videoUrls) with
        ⟨hall, hdl⟩ | ⟨k, hkn, hkf, hmin, hdl⟩
      · rw [hdl]
        set L := (List.range (jsArrayLength videoUrls)).map
          (fun i => TempFile.staged (i + 1)) with hL
        cases hex : env.ffmpegExitCode == 0 with
        | false =>
            have hm := mergeVideosRun_fst L env.ffmpegExitCode
            rw [hex] at hm
            simp only [Bool.false_eq_true, if_false] at hm
            have hnil : cleanupFiles (mergeVideosRun L env.ffmpegExitCode).2 L = [] :=
              cleanupFiles_eq_nil (mergeVideosRun_snd_of_ne L env.ffmpegExitCode hex)
            rw [hm]
            simp [hnil]
        | true =>
            have hm := mergeVideosRun_fst L env.ffmpegExitCode
            rw [hex] at hm
            simp only [if_true] at hm
            rw [hm]
            cases hu : (uploadToCloudinary env.upload
                (compressionBlock env.compressResult env.mergedSizeBytes
                  (mergeVideosRun L env.ffmpegExitCode).2 L).finalBytes).2 with
            | error es =>
                refine ⟨?_, by simp, by simp⟩
                simp only [List.all_eq_true, decide_eq_true_eq]
                intro f hf
                obtain ⟨hff, hfn⟩ := mem_cleanupFiles.mp hf
                obtain ⟨-, h2⟩ := compressionBlock_files_spec _ _ _ _ f hff
                obtain ⟨hfM, hfdl⟩ := h2 hfn
                rcases mergeVideosRun_snd_subset L env.ffmpegExitCode f hfM with h | h
                · exact absurd h hfdl
                · exact h
            | ok url =>
                have hnil2 : cleanupFiles
                    (compressionBlock env.compressResult env.mergedSizeBytes
                      (mergeVideosRun L env.ffmpegExitCode).2 L).files
                    ((compressionBlock env.compressResult env.mergedSizeBytes
                      (mergeVideosRun L env.ffmpegExitCode).2 L).cleanupList ++
                      [TempFile.merged]) = [] := by
                  apply cleanupFiles_eq_nil
                  intro x hx
                  obtain ⟨h1, -⟩ := compressionBlock_files_spec _ _ _ _ x hx
                  rcases h1 with h | h
                  · exact List.mem_append.mpr (Or.inl h)
                  · rcases mergeVideosRun_snd_subset L env.ffmpegExitCode x h with h3 | h3
                    · exact List.mem_append.mpr (Or.inl
                        (compressionBlock_dl_subset _ _ _ _ x h3))
                    · simp [h3]
                simp [hnil2]
      · rw [hdl]
        have hnil : cleanupFiles ((List.range k).map (fun i => TempFile.staged (i + 1)))
            ((List.range k).map (fun i => TempFile.staged (i + 1))) = [] :=
          cleanupFiles_eq_nil (fun _ hx => hx)
        simp [hnil]

/-- A request environment in which everything external behaves: Cloudinary
is configured, every download succeeds, ffmpeg exits 0 with a small 10 MB
merged output, and every upload call succeeds. -/
def envAllOk : PipelineEnv :=
  { cloudinaryConfigured := true, downloadOk := fun _ => true,
    ffmpegExitCode := 0, mergedSizeBytes := 10 * 1048576,
    compressResult := Except.error (),
    upload := fun _ => Except.ok "https://res.cloudinary.com/demo/merged.mp4" }

/-- Like `envAllOk` but every upload call fails with an error that is not
size- or synchronicity-related (e.g. an authentication failure), so the
delivery stage fails without any fallback. -/
def envUploadFail : PipelineEnv :=
  { cloudinaryConfigured := true, downloadOk := fun _ => true,
    ffmpegExitCode := 0, mergedSizeBytes := 10 * 1048576,
    compressResult := Except.error (),
    upload := fun _ => Except.error { tooLarge := false, synchronously := false } }

/-- Claim C2 (counterexample): on a delivery failure the concatenated
artifact `merged_${sessionId}.mp4` is NOT deleted before the response is
sent — the catch block runs `cleanupFiles([...downloadedFiles])`, which
omits `outputPath` — so the claim that every filesystem artifact is
deleted on the delivery-failure exit path is false. -/
theorem claim_C2_counterexample :
    (mergeVideosHandler envUploadFail (some (JsValue.arr [JsValue.str "u"]))).status = 500 ∧
    (mergeVideosHandler envUploadFail (some (JsValue.arr [JsValue.str "u"]))).success = false ∧
    (mergeVideosHandler envUploadFail (some (JsValue.arr [JsValue.str "u"]))).finalFiles
      = [TempFile.merged] := by
  refine ⟨?_, ?_, ?_⟩ <;>
    · norm_num [mergeVideosHandler, envUploadFail, validationError, isFalsy,
        isArray, jsArrayLength, downloadLoop, downloadLoopGo, mergeVideosRun,
        compressionBlock, uploadToCloudinary, runPrimary, fileSizeMBOfBytes,
        cleanupFiles, sizeOrSyncRelated, List.range_succ] <;> decide

/-- Witness for the amended claim C2 at a concrete successful request:
the final temp-file state is empty. -/
theorem claim_C2_witness :
    (mergeVideosHandler envAllOk (some (JsValue.arr [JsValue.str "u"]))).finalFiles = [] := by
  have hsucc : (mergeVideosHandler envAllOk (some (JsValue.arr [JsValue.str "u"]))).success = true := by
    norm_num [mergeVideosHandler, envAllOk, validationError, isFalsy,
      isArray, jsArrayLength, downloadLoop, downloadLoopGo, mergeVideosRun,
      compressionBlock, uploadToCloudinary, runPrimary, fileSizeMBOfBytes,
      cleanupFiles, sizeOrSyncRelated, List.range_succ]
  exact (claim_C2_amended envAllOk (some (JsValue.arr [JsValue.str "u"]))).2.1 hsucc

/-- Claim C1 (counterexample): with a 10 MB artifact whose every upload
call fails with a size-related (`too large`) error, the code makes exactly
two attempts — the tiered sync upload and the single compressed fallback —
then fails; no attempt is a raw upload free of transform directives, and
no attempt is unsigned, so the claimed three-step
tiered / raw / unsigned fallback chain is false. -/
theorem claim_C1_counterexample :
    (uploadToCloudinary
        (fun _ => Except.error { tooLarge := true, synchronously := false })
        (10 * 1048576)).1
      = [AttemptKind.syncUpload, AttemptKind.compressedFallback] ∧
    (uploadToCloudinary
        (fun _ => Except.error { tooLarge := true, synchronously := false })
        (10 * 1048576)).2
      = Except.error [{ tooLarge := true, synchronously := false },
          { tooLarge := true, synchronously := false }] ∧
    ((uploadToCloudinary
        (fun _ => Except.error { tooLarge := true, synchronously := false })
        (10 * 1048576)).1.all
      (fun k => !(attemptOptions k).unsigned)) = true ∧
    ((uploadToCloudinary
        (fun _ => Except.error { tooLarge := true, synchronously := false })
        (10 * 1048576)).1.all
      (fun k => hasTransformDirectives (attemptOptions k))) = true := by
  refine ⟨?_, ?_, ?_, ?_⟩ <;>
    norm_num [uploadToCloudinary, runPrimary, fileSizeMBOfBytes,
      sizeOrSyncRelated, attemptOptions, hasTransformDirectives]

/-- Claim C1 (amended): when the tiered primary strategy fails with a
size- or synchronicity-related error, exactly one fallback is attempted —
a signed upload carrying aggressive compression directives (quality
auto:low, 500k bitrate, h264, 24 fps) under `publicId + '_compressed'` —
stopping there on success and otherwise failing with both errors
aggregated; an error of any other class propagates with no fallback.
There is no raw and no unsigned attempt. -/
theorem claim_C1_amended (up : AttemptKind → Except UploadError String)
    (bytes : Nat) (e : UploadError)
    (hp : (runPrimary up bytes).2 = Except.error e) :
    (sizeOrSyncRelated e = true →
      (uploadToCloudinary up bytes).1
        = (runPrimary up bytes).1 ++ [AttemptKind.compressedFallback] ∧
      (∀ url, up AttemptKind.compressedFallback = Except.ok url →
        (uploadToCloudinary up bytes).2 = Except.ok url) ∧
      (∀ f, up AttemptKind.compressedFallback = Except.error f →
        (uploadToCloudinary up bytes).2 = Except.error [e, f])) ∧
    (sizeOrSyncRelated e = false →
      (uploadToCloudinary up bytes).1 = (runPrimary up bytes).1 ∧
      (uploadToCloudinary up bytes).2 = Except.error [e]) ∧
    (attemptOptions AttemptKind.compressedFallback).unsigned = false ∧
    (attemptOptions AttemptKind.compressedFallback).bitRate = some "500k" ∧
    (attemptOptions AttemptKind.compressedFallback).quality = some "auto:low" ∧
    (attemptOptions AttemptKind.compressedFallback).publicIdSuffix = "_compressed" := by
  refine ⟨?_, ?_, rfl, rfl, rfl, rfl⟩
  · intro hs
    simp only [uploadToCloudinary]
    rw [hp]
    simp only [hs, if_true]
    refine ⟨?_, ?_, ?_⟩
    · cases hu : up AttemptKind.compressedFallback <;> simp
    · intro url hu; rw [hu]
    · intro f hu; rw [hu]
  · intro hs
    simp only [uploadToCloudinary]
    rw [hp]
    simp [hs]

/-- Witness for the amended claim C1: primary sync attempt fails with a
size-related error, the compressed fallback succeeds, and the call
returns the fallback's URL after the attempt trace
[sync, compressedFallback]. -/
theorem claim_C1_witness :
    (uploadToCloudinary
        (fun k => if k == AttemptKind.compressedFallback then Except.ok "https://u2"
          else Except.error { tooLarge := true, synchronously := false })
        (10 * 1048576)).1
      = [AttemptKind.syncUpload, AttemptKind.compressedFallback] ∧
    (uploadToCloudinary
        (fun k => if k == AttemptKind.compressedFallback then Except.ok "https://u2"
          else Except.error { tooLarge := true, synchronously := false })
        (10 * 1048576)).2 = Except.ok "https://u2" := by
  have h := claim_C1_amended
    (fun k => if k == AttemptKind.compressedFallback then Except.ok "https://u2"
      else Except.error { tooLarge := true, synchronously := false })
    (10 * 1048576) { tooLarge := true, synchronously := false }
    (by norm_num [runPrimary, fileSizeMBOfBytes]; simp)
  obtain ⟨h1, -, -, -, -, -⟩ := h
  obtain ⟨ht, hok, -⟩ := h1 rfl
  refine ⟨?_, hok "https://u2" rfl⟩
  rw [ht]
  norm_num [runPrimary, fileSizeMBOfBytes]

lemma compressionBlock_attempts (cr : Except Unit Nat) (mb : Nat)
    (filesMerged dl : List TempFile) :
    (compressionBlock cr mb filesMerged dl).attempts =
      if fileSizeMBOfBytes mb > 95 then [compressVideoSmartParams] else [] := by
  by_cases h95 : fileSizeMBOfBytes mb > 95
  · cases cr with
    | error e => simp [compressionBlock, h95]
    | ok cb =>
        by_cases hsm : fileSizeMBOfBytes cb < fileSizeMBOfBytes mb * (8 / 10)
        · simp [compressionBlock, h95, hsm]
        · simp [compressionBlock, h95, hsm]
  · simp [compressionBlock, h95]

lemma validationError_eq_none {elems : List JsValue}
    (h1 : 1 ≤ elems.length) (h2 : elems.length ≤ 10) :
    validationError (some (JsValue.arr elems)) = none := by
  unfold validationError
  rw [if_neg, if_neg]
  · simp only [jsArrayLength]
    omega
  · simp only [isFalsy, isArray, jsArrayLength, Bool.not_true, Bool.or_false,
      Bool.false_or, Bool.or_eq_true, beq_iff_eq]
    omega

/-- A concrete environment whose merged output is 100 MB (above the 95 MB
compression mark) and whose compression subprocess errors; uploads
succeed. -/
def envBigCompressErr : PipelineEnv :=
  { cloudinaryConfigured := true, downloadOk := fun _ => true,
    ffmpegExitCode := 0, mergedSizeBytes := 100 * 1048576,
    compressResult := Except.error (),
    upload := fun _ => Except.ok "https://res.cloudinary.com/demo/merged.mp4" }

/-- Claim C3 (counterexample): for a 100 MB merged artifact (above the
95 MB mark) the pipeline's one and only transform attempt is the
bitrate-targeting `compressVideoSmart` — its option list sets no
resolution/scale directive — so the claim that a resolution-reducing
transform is attempted first (with a bitrate transform only as a
second-mark fallback) is false. -/
theorem claim_C3_counterexample :
    (mergeVideosHandler envBigCompressErr (some (JsValue.arr [JsValue.str "u"]))).transformAttempts
      = [compressVideoSmartParams] ∧
    compressVideoSmartParams.setsResolution = false ∧
    compressVideoSmartParams.videoBitrateFromTargetSize = true := by
  refine ⟨?_, rfl, rfl⟩
  norm_num [mergeVideosHandler, envBigCompressErr, validationError, isFalsy,
    isArray, jsArrayLength, downloadLoop, downloadLoopGo, mergeVideosRun,
    compressionBlock, uploadToCloudinary, runPrimary, fileSizeMBOfBytes,
    cleanupFiles, sizeOrSyncRelated, List.range_succ]

/-- Claim C3 (amended): whenever the merged artifact exceeds 95 MB, the
pipeline attempts exactly one transform — the bitrate-targeting
compression toward 90 MB (libx264, bitrate computed from target size, no
resolution directive) — and at or below 95 MB it attempts none; there is
no resolution-reducing transform and no second transform attempt at any
higher mark. -/
theorem claim_C3_amended (env : PipelineEnv) (elems : List JsValue)
    (h1 : 1 ≤ elems.length) (h2 : elems.length ≤ 10)
    (hc : env.cloudinaryConfigured = true)
    (hd : ∀ j, j < elems.length → env.downloadOk j = true)
    (hexit : env.ffmpegExitCode = 0) :
    (mergeVideosHandler env (some (JsValue.arr elems))).transformAttempts
      = (if fileSizeMBOfBytes env.mergedSizeBytes > 95
          then [compressVideoSmartParams] else []) ∧
    compressVideoSmartParams.videoBitrateFromTargetSize = true ∧
    compressVideoSmartParams.setsResolution = false := by
  refine ⟨?_, rfl, rfl⟩
  unfold mergeVideosHandler
  rw [validationError_eq_none h1 h2]
  simp only [hc, Bool.not_true, Bool.false_eq_true, if_false, jsArrayLength]
  have hdl : downloadLoop env.downloadOk elems.length =
      (List.range elems.length,
        (List.range elems.length).map (fun i => TempFile.staged (i + 1)), true) :=
    downloadLoopGo_all_ok (fun j hj => hd j (List.mem_range.mp hj))
  rw [hdl]
  simp only [Bool.not_true, Bool.false_eq_true, if_false]
  set L := (List.range elems.length).map (fun i => TempFile.staged (i + 1)) with hL
  have hm : (mergeVideosRun L env.ffmpegExitCode).1 = Except.ok () := by
    rw [mergeVideosRun_fst, hexit]
    simp
  rw [hm]
  cases hu : (uploadToCloudinary env.upload
      (compressionBlock env.compressResult env.mergedSizeBytes
        (mergeVideosRun L env.ffmpegExitCode).2 L).finalBytes).2 with
  | error es => simp [compressionBlock_attempts]
  | ok url => simp [compressionBlock_attempts]

/-- Witness for the amended claim C3 at a concrete 100 MB request whose
compression subprocess errors: exactly one bitrate transform attempt. -/
theorem claim_C3_witness :
    (mergeVideosHandler envBigCompressErr (some (JsValue.arr [JsValue.str "u"]))).transformAttempts
      = [compressVideoSmartParams] := by
  have h := claim_C3_amended envBigCompressErr [JsValue.str "u"]
    (by decide) (by decide) rfl (fun j _ => rfl) rfl
  rw [h.1]
  norm_num [envBigCompressErr, fileSizeMBOfBytes]

/-- Claim C4: delivery strategy selection is a pure function of the final
artifact's size alone — at most 50 MB sync (direct), over 50 up to 100 MB
async (asynchronous-eager), over 100 up to 200 MB chunked, over 200 MB
streaming — with the spec's concrete probes 49/75/150/250 MB, and the
first call actually attempted by `uploadToCloudinary` is the one matching
the selected strategy. -/
theorem claim_C4 (mb : ℚ) (bytes : Nat)
    (up : AttemptKind → Except UploadError String) :
    (mb ≤ 50 → selectUploadStrategy mb = UploadStrategy.sync) ∧
    (50 < mb → mb ≤ 100 → selectUploadStrategy mb = UploadStrategy.async) ∧
    (100 < mb → mb ≤ 200 → selectUploadStrategy mb = UploadStrategy.chunked) ∧
    (200 < mb → selectUploadStrategy mb = UploadStrategy.streaming) ∧
    selectUploadStrategy 49 = UploadStrategy.sync ∧
    selectUploadStrategy 75 = UploadStrategy.async ∧
    selectUploadStrategy 150 = UploadStrategy.chunked ∧
    selectUploadStrategy 250 = UploadStrategy.streaming ∧
    (runPrimary up bytes).1.head? =
      some (strategyAttempt (selectUploadStrategy (fileSizeMBOfBytes bytes))) := by
  refine ⟨?_, ?_, ?_, ?_, by norm_num [selectUploadStrategy],
    by norm_num [selectUploadStrategy], by norm_num [selectUploadStrategy],
    by norm_num [selectUploadStrategy], ?_⟩
  · intro h
    unfold selectUploadStrategy
    rw [if_neg (by linarith), if_neg (by linarith), if_neg (by linarith)]
  · intro h1 h2
    unfold selectUploadStrategy
    rw [if_neg (by linarith), if_neg (by linarith), if_pos (by linarith)]
  · intro h1 h2
    unfold selectUploadStrategy
    rw [if_neg (by linarith), if_pos (by linarith)]
  · intro h
    unfold selectUploadStrategy
    rw [if_pos (by linarith)]
  · unfold runPrimary selectUploadStrategy
    split_ifs <;> try rfl
    cases up AttemptKind.chunkedUpload <;> rfl

/-- Witness for claim C4 at 49 MB: the sync (direct) strategy is
selected. -/
theorem claim_C4_witness :
    selectUploadStrategy (fileSizeMBOfBytes (49 * 1048576)) = UploadStrategy.sync :=
  (claim_C4 (fileSizeMBOfBytes (49 * 1048576)) 0 (fun _ => Except.ok "u")).1
    (by norm_num [fileSizeMBOfBytes])

/-- Claim C6: a request whose `videoUrls` is missing, falsy, not an array,
an empty array, or an array of more than 10 entries is rejected with HTTP
400 before any resource exists: no session is created, no download is
attempted, no upload is attempted, and no temp file remains. -/
theorem claim_C6 (env : PipelineEnv) (videoUrls : Option JsValue)
    (h : isFalsy videoUrls = true ∨ isArray videoUrls = false ∨
      jsArrayLength videoUrls = 0 ∨ jsArrayLength videoUrls > 10) :
    (mergeVideosHandler env videoUrls).status = 400 ∧
    (mergeVideosHandler env videoUrls).success = false ∧
    (mergeVideosHandler env videoUrls).sessionCreated = false ∧
    (mergeVideosHandler env videoUrls).downloadAttempts = [] ∧
    (mergeVideosHandler env videoUrls).uploadAttempts = [] ∧
    (mergeVideosHandler env videoUrls).finalFiles = [] := by
  have hv : ∃ msg, validationError videoUrls = some (400, msg) := by
    unfold validationError
    split_ifs with hc1 hc2
    · exact ⟨_, rfl⟩
    · exact ⟨_, rfl⟩
    · exfalso
      rcases h with h | h | h | h
      · simp [h] at hc1
      · simp [h] at hc1
      · simp [h] at hc1
      · omega
  obtain ⟨msg, hv⟩ := hv
  unfold mergeVideosHandler
  rw [hv]
  simp

/-- Witness for claim C6 on the concrete missing-field request body. -/
theorem claim_C6_witness :
    (mergeVideosHandler envAllOk none).status = 400 ∧
    (mergeVideosHandler envAllOk none).finalFiles = [] :=
  ⟨(claim_C6 envAllOk none (Or.inl rfl)).1,
   (claim_C6 envAllOk none (Or.inl rfl)).2.2.2.2.2⟩

lemma mem_insertDesc {x a : RemoteArtifact} {l : List RemoteArtifact} :
    x ∈ insertDesc a l ↔ x = a ∨ x ∈ l := by
  induction l with
  | nil => simp [insertDesc]
  | cons b rest ih =>
      unfold insertDesc
      split_ifs
      · simp [ih]
        tauto
      · simp

lemma mem_sortByCreatedDesc {x : RemoteArtifact} {l : List RemoteArtifact} :
    x ∈ sortByCreatedDesc l ↔ x ∈ l := by
  induction l with
  | nil => simp [sortByCreatedDesc]
  | cons a rest ih => simp [sortByCreatedDesc, mem_insertDesc, ih]

/-- Claim C7: the retention sweep selects only artifacts created strictly
before now minus 30 days, and every selected artifact receives its own
deletion attempt — the list of attempted ids equals the list of selected
ids whatever the per-item deletion outcomes are, so one failure neither
blocks the remaining deletions nor aborts the sweep. -/
theorem claim_C7 (artifacts : List RemoteArtifact) (now : Int)
    (destroyOk : String → Bool) :
    (∀ r ∈ autoCleanupSearch artifacts now, r.createdAt < now - thirtyDaysMs) ∧
    (autoCleanupSweep artifacts now destroyOk).map Prod.fst
      = (autoCleanupSearch artifacts now).map (fun r => r.publicId) ∧
    (autoCleanupSweep artifacts now destroyOk).length
      = (autoCleanupSearch artifacts now).length := by
  refine ⟨?_, ?_, ?_⟩
  · intro r hr
    have h1 : r ∈ sortByCreatedDesc
        (artifacts.filter (fun a => a.createdAt < now - thirtyDaysMs)) :=
      List.take_subset 100 _ hr
    have h2 := mem_sortByCreatedDesc.mp h1
    have := List.mem_filter.mp h2
    simpa using this.2
  · simp [autoCleanupSweep, List.map_map]
  · simp [autoCleanupSweep]

/-- Witness for claim C7 on a concrete mixed-age artifact set with one
failing deletion: only the two old artifacts are selected, and both are
attempted even though the first deletion fails. -/
theorem claim_C7_witness :
    (∀ r ∈ autoCleanupSearch
        [{ publicId := "old1", createdAt := 0 },
         { publicId := "new1", createdAt := 9000000000 },
         { publicId := "old2", createdAt := 1000 }] 10000000000,
      r.createdAt < 10000000000 - thirtyDaysMs) ∧
    (autoCleanupSweep
        [{ publicId := "old1", createdAt := 0 },
         { publicId := "new1", createdAt := 9000000000 },
         { publicId := "old2", createdAt := 1000 }] 10000000000
        (fun pid => !(pid == "old1")))
      = [("old2", true), ("old1", false)] := by
  refine ⟨(claim_C7 _ _ (fun pid => !(pid == "old1"))).1, ?_⟩
  decide

/-- Claim C8: for every concatenation call, the transient manifest is
absent from the file-system state after the encoder subprocess
terminates, whether the exit code is zero or not; a non-zero exit code c
fails with the error message `FFmpeg failed with exit code c`, and a zero
exit succeeds. -/
theorem claim_C8 (files : List TempFile) (code : Nat) :
    TempFile.manifest ∉ (mergeVideosRun files code).2 ∧
    (code ≠ 0 → (mergeVideosRun files code).1 =
      Except.error ("FFmpeg failed with exit code " ++ toString code)) ∧
    (code = 0 → (mergeVideosRun files code).1 = Except.ok ()) := by
  refine ⟨manifest_not_mem_mergeVideosRun files code, ?_, ?_⟩
  · intro h
    rw [mergeVideosRun_fst]
    simp [h]
  · intro h
    rw [mergeVideosRun_fst]
    simp [h]

/-- Witness for claim C8 at exit code 137: the manifest is gone and the
error preserves the exit code. -/
theorem claim_C8_witness :
    TempFile.manifest ∉ (mergeVideosRun [TempFile.staged 1] 137).2 ∧
    (mergeVideosRun [TempFile.staged 1] 137).1 =
      Except.error ("FFmpeg failed with exit code " ++ toString 137) :=
  ⟨(claim_C8 [TempFile.staged 1] 137).1,
   (claim_C8 [TempFile.staged 1] 137).2.1 (by decide)⟩

lemma compressionBlock_error_big {mb : Nat} (hbig : fileSizeMBOfBytes mb > 95)
    (filesMerged dl : List TempFile) :
    compressionBlock (Except.error ()) mb filesMerged dl =
      { attempts := [compressVideoSmartParams], applied := false,
        finalBytes := mb, files := filesMerged, cleanupList := dl,
        finalOutput := TempFile.merged } := by
  simp [compressionBlock, hbig]

/-- Claim C5: if the pre-upload compression transform errors, the request
still succeeds (provided the upload of the original artifact succeeds):
the original concatenated artifact is the one delivered, and the success
response carries `compressed = false` (the transform-not-applied flag). -/
theorem claim_C5 (env : PipelineEnv) (elems : List JsValue)
    (h1 : 1 ≤ elems.length) (h2 : elems.length ≤ 10)
    (hc : env.cloudinaryConfigured = true)
    (hd : ∀ j, j < elems.length → env.downloadOk j = true)
    (hexit : env.ffmpegExitCode = 0)
    (hbig : fileSizeMBOfBytes env.mergedSizeBytes > 95)
    (hcomp : env.compressResult = Except.error ())
    (hup : ∃ url, (uploadToCloudinary env.upload env.mergedSizeBytes).2
      = Except.ok url) :
    (mergeVideosHandler env (some (JsValue.arr elems))).success = true ∧
    (mergeVideosHandler env (some (JsValue.arr elems))).status = 200 ∧
    (mergeVideosHandler env (some (JsValue.arr elems))).compressed = some false ∧
    (mergeVideosHandler env (some (JsValue.arr elems))).uploadedFile
      = some TempFile.merged ∧
    (mergeVideosHandler env (some (JsValue.arr elems))).transformAttempts
      = [compressVideoSmartParams] := by
  obtain ⟨url, hu⟩ := hup
  unfold mergeVideosHandler
  rw [validationError_eq_none h1 h2]
  simp only [hc, Bool.not_true, Bool.false_eq_true, if_false, jsArrayLength]
  have hdl : downloadLoop env.downloadOk elems.length =
      (List.range elems.length,
        (List.range elems.length).map (fun i => TempFile.staged (i + 1)), true) :=
    downloadLoopGo_all_ok (fun j hj => hd j (List.mem_range.mp hj))
  rw [hdl]
  simp only [Bool.not_true, Bool.false_eq_true, if_false]
  set L := (List.range elems.length).map (fun i => TempFile.staged (i + 1)) with hL
  have hm : (mergeVideosRun L env.ffmpegExitCode).1 = Except.ok () := by
    rw [mergeVideosRun_fst, hexit]
    simp
  rw [hm, hcomp, compressionBlock_error_big hbig]
  simp only [hu]
  simp

/-- Witness for claim C5 at the concrete 100 MB request whose compression
subprocess errors and whose async upload succeeds. -/
theorem claim_C5_witness :
    (mergeVideosHandler envBigCompressErr (some (JsValue.arr [JsValue.str "u"]))).success = true ∧
    (mergeVideosHandler envBigCompressErr (some (JsValue.arr [JsValue.str "u"]))).compressed
      = some false := by
  have h := claim_C5 envBigCompressErr [JsValue.str "u"] (by decide) (by decide)
    rfl (fun j _ => rfl) rfl
    (by norm_num [envBigCompressErr, fileSizeMBOfBytes]) rfl
    ⟨"https://res.cloudinary.com/demo/merged.mp4",
      by norm_num [envBigCompressErr, uploadToCloudinary, runPrimary,
        fileSizeMBOfBytes]⟩
  exact ⟨h.1, h.2.2.1⟩

lemma mergeVideosHandler_session_fields (env : PipelineEnv)
    (videoUrls : Option JsValue)
    (hv : validationError videoUrls = none)
    (hc : env.cloudinaryConfigured = true) :
    (mergeVideosHandler env videoUrls).sessionCreated = true ∧
    (mergeVideosHandler env videoUrls).downloadAttempts
      = (downloadLoop env.downloadOk (jsArrayLength videoUrls)).1 := by
  unfold mergeVideosHandler
  rw [hv]
  simp only [hc, Bool.not_true, Bool.false_eq_true, if_false]
  rcases downloadLoop_cases env.downloadOk (jsArrayLength videoUrls) with
    ⟨hall, hdl⟩ | ⟨k, hkn, hkf, hmin, hdl⟩
  · rw [hdl]
    simp only [Bool.not_true, Bool.false_eq_true, if_false]
    cases hm : (mergeVideosRun
        ((List.range (jsArrayLength videoUrls)).map
          (fun i => TempFile.staged (i + 1))) env.ffmpegExitCode).1 with
    | error msg => simp
    | ok u =>
        cases hu : (uploadToCloudinary env.upload
            (compressionBlock env.compressResult env.mergedSizeBytes
              (mergeVideosRun
                ((List.range (jsArrayLength videoUrls)).map
                  (fun i => TempFile.staged (i + 1)))
                env.ffmpegExitCode).2
              ((List.range (jsArrayLength videoUrls)).map
                (fun i => TempFile.staged (i + 1)))).finalBytes).2 with
        | error es => simp
        | ok url => simp
  · rw [hdl]
    simp

lemma downloadLoop_head {ok : Nat → Bool} {n : Nat} (h : 1 ≤ n) :
    (downloadLoop ok n).1.head? = some 0 := by
  obtain ⟨m, rfl⟩ : ∃ m, n = m + 1 := ⟨n - 1, by omega⟩
  unfold downloadLoop
  rw [List.range_succ_eq_map]
  cases hok : ok 0 <;> simp [downloadLoopGo, hok]

/-- Claim C10: validation looks only at array-ness and length — any array
of 1 to 10 elements of arbitrary JSON type (numbers, null, objects, ...)
passes validation, and (with Cloudinary configured) the handler creates a
session and starts the first download. -/
theorem claim_C10 (env : PipelineEnv) (elems : List JsValue)
    (h1 : 1 ≤ elems.length) (h2 : elems.length ≤ 10)
    (hc : env.cloudinaryConfigured = true) :
    validationError (some (JsValue.arr elems)) = none ∧
    (mergeVideosHandler env (some (JsValue.arr elems))).sessionCreated = true ∧
    (mergeVideosHandler env (some (JsValue.arr elems))).downloadAttempts.head?
      = some 0 := by
  have hv := validationError_eq_none h1 h2
  obtain ⟨hs, hda⟩ := mergeVideosHandler_session_fields env _ hv hc
  refine ⟨hv, hs, ?_⟩
  rw [hda]
  simp only [jsArrayLength]
  exact downloadLoop_head h1

/-- Witness for claim C10 at a concrete array of a null, a number, and an
object: validation passes and the download of index 0 is attempted. -/
theorem claim_C10_witness :
    validationError (some (JsValue.arr [JsValue.null, JsValue.num 3,
      JsValue.obj []])) = none ∧
    (mergeVideosHandler envAllOk (some (JsValue.arr [JsValue.null,
      JsValue.num 3, JsValue.obj []]))).sessionCreated = true :=
  ⟨(claim_C10 envAllOk [JsValue.null, JsValue.num 3, JsValue.obj []]
      (by decide) (by decide) rfl).1,
   (claim_C10 envAllOk [JsValue.null, JsValue.num 3, JsValue.obj []]
      (by decide) (by decide) rfl).2.1⟩

/-- Claim C9: downloads are attempted one URL at a time in input order
(the attempted indices always form an initial range, each index at most
once, so there is no per-URL retry); when every fetch succeeds the loop
stages exactly one file per URL, named from the session identifier and
the 1-based position, and the concatenation manifest lists the staged
paths in input order; the first failing index k aborts the loop after
attempts 0..k with only the first k files staged and no later URL
fetched. -/
theorem claim_C9 (downloadOk : Nat → Bool) (n k : Nat) (sid : String) :
    (∃ m, m ≤ n ∧ (downloadLoop downloadOk n).1 = List.range m ∧
      (downloadLoop downloadOk n).1.Nodup) ∧
    ((∀ j, j < n → downloadOk j = true) →
      downloadLoop downloadOk n =
        (List.range n, (List.range n).map (fun i => TempFile.staged (i + 1)),
          true) ∧
      mergeVideosManifestLines
          (((List.range n).map (fun i => TempFile.staged (i + 1))).map
            (tempFilePath sid))
        = (List.range n).map (fun i =>
            "file \x27" ++ (sid ++ "_video_" ++ toString (i + 1) ++ ".mp4")
              ++ "\x27")) ∧
    (k < n → (∀ j, j < k → downloadOk j = true) → downloadOk k = false →
      downloadLoop downloadOk n =
        (List.range (k + 1),
          (List.range k).map (fun i => TempFile.staged (i + 1)), false)) := by
  refine ⟨?_, ?_, ?_⟩
  · rcases downloadLoop_cases downloadOk n with ⟨hall, hdl⟩ |
      ⟨k', hk'n, hk'f, hmin, hdl⟩
    · exact ⟨n, le_refl n, by rw [hdl], by rw [hdl]; exact List.nodup_range n⟩
    · exact ⟨k' + 1, by omega, by rw [hdl], by rw [hdl]; exact List.nodup_range _⟩
  · intro hall
    refine ⟨downloadLoopGo_all_ok (fun j hj => hall j (List.mem_range.mp hj)), ?_⟩
    simp [mergeVideosManifestLines, tempFilePath, List.map_map]
  · intro hkn hmin hkf
    unfold downloadLoop
    rw [range_split hkn,
      downloadLoopGo_append_fail (fun j hj => hmin j (List.mem_range.mp hj)) hkf,
      ← List.range_succ]

/-- Witness for claim C9: three URLs whose second download fails — indices
0 and 1 are attempted, only the first file is staged, and the loop reports
failure without touching index 2. -/
theorem claim_C9_witness :
    downloadLoop (fun j => j == 0) 3 =
      ([0, 1], [TempFile.staged 1], false) := by
  have h := (claim_C9 (fun j => j == 0) 3 1 "sid").2.2 (by omega)
    (fun j hj => by interval_cases j; rfl) rfl
  rw [h]
  rfl

end VideoMerger
